import Mathlib

/-!
Verification of the zenn-editor repository fragment: the `EmbedMermaid`
widget (`packages/zenn-embed-elements/src/classes/mermaid.ts`) and the
markdown-to-HTML `<br>` escaping contract exercised by
`packages/zenn-markdown-html/__tests__/br.test.ts`.

The TypeScript code is shallowly embedded: strings are Lean `String`s
(recursive text processing works on `List Char`), the DOM children of the
widget are an explicit list, the global page state is an explicit record,
and the third-party mermaid parser is a parameter returning `Except`.
-/

namespace Zenn

/-! ### Generic string helpers (substring containment, splitting, trimming) -/

/-- Decides whether `p` is a prefix of `l` (character lists). -/
def isPrefixList : List Char → List Char → Bool
  | [], _ => true
  | _ :: _, [] => false
  | a :: as, b :: bs => a = b && isPrefixList as bs

/-- Decides whether `needle` occurs as a contiguous sublist of `hay`. -/
def containsSub (needle : List Char) : List Char → Bool
  | [] => needle.isEmpty
  | c :: cs => isPrefixList needle (c :: cs) || containsSub needle cs

/-- Decides whether `needle` occurs as a substring of `hay`; this models the
`expect(html).toContain(...)` / regex-match assertions of the test file. -/
def containsSubstring (hay needle : String) : Bool :=
  containsSub needle.data hay.data

/-- Splits a character list at every occurrence of `sep` (the separator is
dropped); always returns at least one segment. -/
def splitOnChar (sep : Char) : List Char → List (List Char)
  | [] => [[]]
  | c :: cs =>
    let r := splitOnChar sep cs
    if c = sep then [] :: r
    else (c :: r.headD []) :: r.tail

/-- True exactly on the space character; used by cell trimming. -/
def isSpaceChar (c : Char) : Bool := c = ' '

/-- Removes leading and trailing spaces from a character list. -/
def trimChars (l : List Char) : List Char :=
  ((l.dropWhile isSpaceChar).reverse.dropWhile isSpaceChar).reverse

/-- The backtick character (code point 96). -/
def tickChar : Char := Char.ofNat 96

/-! ### Markdown-to-HTML converter

Modelled from the spec: the `markdownToHtml` function of
`zenn-markdown-html` is not part of the sources (only its test file is).
The spec describes it as a pure function from markdown text to an HTML
string in which raw inline HTML such as `<br>` appearing directly in prose
or inside a table cell is passed through unescaped, while the content of
inline code spans and fenced code blocks is always HTML-entity-escaped. -/

/-- HTML-entity escaping of a single character, as performed on
code-context content. -/
def escapeHtmlChar (c : Char) : List Char :=
  if c = '&' then "&amp;".data
  else if c = '<' then "&lt;".data
  else if c = '>' then "&gt;".data
  else if c = '"' then "&quot;".data
  else [c]

/-- HTML-entity escaping of a character list. -/
def escapeHtmlChars : List Char → List Char
  | [] => []
  | c :: cs => escapeHtmlChar c ++ escapeHtmlChars cs

/-- HTML-entity escaping of a string (code-context content is always
treated as literal text and escaped). -/
def escapeHtml (s : String) : String := String.mk (escapeHtmlChars s.data)

/-- Renders the backtick-separated segments of one inline run: segments at
odd positions are inline code spans (escaped, wrapped in a code tag),
segments at even positions are prose (raw HTML passed through). -/
def renderInlineSegs : List (List Char) → Bool → List Char
  | [], _ => []
  | s :: rest, inCode =>
    (if inCode then "<code>".data ++ escapeHtmlChars s ++ "</code>".data else s)
      ++ renderInlineSegs rest (!inCode)

/-- Renders inline markdown: code spans are escaped, everything else is
passed through unchanged (raw HTML passthrough). -/
def renderInline (l : List Char) : List Char :=
  renderInlineSegs (splitOnChar tickChar l) false

/-- Extracts the cell contents of one table row `| a | b |`: the segments
between the pipes, trimmed. -/
def rowCells (l : List Char) : List (List Char) :=
  (((splitOnChar '|' l).drop 1).dropLast).map trimChars

/-- Renders a list of table cells with the given cell tag, applying inline
rendering (hence raw HTML passthrough) to each cell. -/
def renderCells (tag : String) : List (List Char) → List Char
  | [] => []
  | c :: cs =>
    "<".data ++ tag.data ++ ">".data ++ renderInline c
      ++ "</".data ++ tag.data ++ ">".data ++ renderCells tag cs

/-- Renders one table row. -/
def renderRow (tag : String) (l : List Char) : List Char :=
  "<tr>".data ++ renderCells tag (rowCells l) ++ "</tr>".data

/-- Renders the body rows of a table. -/
def renderBodyRows : List (List Char) → List Char
  | [] => []
  | r :: rs => renderRow "td" r ++ renderBodyRows rs

/-- Renders a markdown table: first line is the header row, second line is
the alignment separator (dropped), remaining lines are body rows. -/
def renderTable (lines : List (List Char)) : List Char :=
  match lines with
  | [] => []
  | header :: rest =>
    "<table><thead>".data ++ renderRow "th" header ++ "</thead><tbody>".data
      ++ renderBodyRows (rest.drop 1) ++ "</tbody></table>".data

/-- A markdown table line starts with a pipe. -/
def isTableLine : List Char → Bool
  | [] => false
  | c :: _ => c = '|'

/-- The three-backtick code fence. -/
def fenceChars : List Char := [tickChar, tickChar, tickChar]

/-- A fence line starts with three backticks. -/
def isFenceLine (l : List Char) : Bool := isPrefixList fenceChars l

/-- Joins lines back together with newlines. -/
def joinLines : List (List Char) → List Char
  | [] => []
  | [l] => l
  | l :: ls => l ++ '\n' :: joinLines ls

/-- Renders a block of markdown lines: a fenced code block is escaped
whole, a table is rendered per row with passthrough cells, and anything
else is a paragraph rendered inline. -/
def markdownLinesToHtml (lines : List (List Char)) : List Char :=
  if 2 ≤ lines.length ∧ isFenceLine (lines.headD []) = true
      ∧ lines.getLast? = some fenceChars then
    "<pre><code>".data ++ escapeHtmlChars (joinLines ((lines.drop 1).dropLast))
      ++ "\n</code></pre>\n".data
  else if 2 ≤ lines.length ∧ lines.all isTableLine = true then
    renderTable lines ++ "\n".data
  else
    "<p>".data ++ renderInline (joinLines lines) ++ "</p>\n".data

/-- Modelled from the spec: the markdown-to-HTML converter of
`zenn-markdown-html` (whose implementation is not among the sources; only
its test file is). Pure function from markdown source text to an HTML
string, supporting tables and fenced code blocks, with raw HTML
passthrough outside code contexts and entity escaping inside them. -/
def markdownToHtml (md : String) : String :=
  String.mk (markdownLinesToHtml (splitOnChar '\n' md.data))

/-- The table input of the `br` test: three joined lines forming a table
whose first body cell contains a raw break tag. -/
def brTableInput : String :=
  "| a | b |" ++ "\n" ++ "| --- | --- |" ++ "\n" ++ "| foo<br>bar | c |"

/-- The fenced-code-block input of the `br` test. -/
def brFenceInput : String := "```" ++ "\n" ++ "<br>" ++ "\n" ++ "```"

/-! ### The `EmbedMermaid` widget (`zenn-embed-elements/src/classes/mermaid.ts`) -/

/-- The pinned mermaid.js version (`MERMAID_VERSION`). -/
def MERMAID_VERSION : String := "8.13"

/-- The per-diagram character limit (`MAX_CHAR_LIMIT`). -/
def MAX_CHAR_LIMIT : Nat := 2000

/-- The limit on chaining-of-links ampersands (`MAX_CHAINING_OF_LINKS_LIMIT`). -/
def MAX_CHAINING_OF_LINKS_LIMIT : Nat := 10

/-- The fixed prefix of per-render element identifiers (`containerId`). -/
def containerId : String := "mermaid-container"

/-- The CDN URL the loader fetches, with `MERMAID_VERSION` interpolated. -/
def mermaidScriptSrc : String :=
  "https://cdn.jsdelivr.net/npm/mermaid@" ++ MERMAID_VERSION ++ "/dist/mermaid.min.js"

/-- The fixed option record passed to `mermaid.mermaidAPI.initialize`
(nested objects flattened into named fields). -/
structure MermaidApiConfig where
  startOnLoad : Bool
  securityLevel : String
  theme : String
  er_useMaxWidth : Bool
  flowchart_useMaxWidth : Bool
  flowchart_htmlLabels : Bool
  sequence_useMaxWidth : Bool
  class_useMaxWidth : Bool
  journey_useMaxWidth : Bool
deriving DecidableEq, Repr

/-- The exact configuration `initMermaid` installs. -/
def mermaidApiFixedConfig : MermaidApiConfig where
  startOnLoad := false
  securityLevel := "strict"
  theme := "default"
  er_useMaxWidth := true
  flowchart_useMaxWidth := true
  flowchart_htmlLabels := false
  sequence_useMaxWidth := true
  class_useMaxWidth := true
  journey_useMaxWidth := true

/-- Process-wide page state touched by `initMermaid`: whether the
`mermaid` global is defined, which scripts have been appended, how often
`mermaid.initialize` and `mermaid.mermaidAPI.initialize` ran, and the
configuration last installed. -/
structure PageState where
  mermaidDefined : Bool
  loadedScripts : List String
  initializeCount : Nat
  apiInitializeCount : Nat
  mermaidApiConfig : Option MermaidApiConfig
deriving DecidableEq, Repr

/-- Embedding of `initMermaid`: when the `mermaid` global is undefined it
loads the CDN script (`loadScript` is modelled from the spec as appending
the script and defining the global, since `../utils/load-script` is not
among the sources) and performs the two fixed initializations; otherwise
it does nothing. -/
def initMermaid (g : PageState) : PageState :=
  if g.mermaidDefined then g
  else
    { mermaidDefined := true
      loadedScripts := g.loadedScripts ++ [mermaidScriptSrc]
      initializeCount := g.initializeCount + 1
      apiInitializeCount := g.apiInitializeCount + 1
      mermaidApiConfig := some mermaidApiFixedConfig }

/-- One risk entry of `PotentialRisk`: a flag and its message. -/
structure ErrorContainer where
  yes : Bool
  message : String
deriving DecidableEq, Repr

/-- The risk record computed before rendering. -/
structure PotentialRisk where
  syntaxError : ErrorContainer
  charLimitOver : ErrorContainer
  chainingOfLinksOver : ErrorContainer
deriving DecidableEq, Repr

/-- Number of ampersand characters in the source, the embedding of
`(source.match(/&/g) || []).length`. -/
def ampCount (s : String) : Nat :=
  (s.data.filter (fun c => c = '&')).length

/-- The fixed first argument of the `console.log` call in the catch branch. -/
def syntaxErrorLogMessage : String :=
  "mermaid.js のレンダリングでシンタックスエラーが発生しました"

/-- Decimal rendering of a natural number, modelling the JavaScript
number-to-string conversion used by template-literal interpolation. -/
def natToString (n : Nat) : String :=
  if n = 0 then "0" else String.mk (((Nat.digits 10 n).reverse).map Nat.digitChar)

/-- Embedding of `getPotentialPerformanceRisk`. The third-party
`mermaid.mermaidAPI.parse` is a parameter returning `Except` (an
exception is an `error`). The try/catch block is the `match`; its
`console.log` output is returned alongside the risk record, so catching
without rethrowing is visible in the type (the function is total). -/
def getPotentialPerformanceRisk (parse : String → Except String Unit)
    (source : String) : PotentialRisk × List String :=
  let coolLog : Bool × List String :=
    match parse source with
    | Except.ok _ => (true, [])
    | Except.error e => (false, [syntaxErrorLogMessage ++ " " ++ e])
  ({ syntaxError :=
      { yes := !coolLog.1
        message := "<li>シンタックスエラーです</li>" }
     charLimitOver :=
      { yes := decide (source.length > MAX_CHAR_LIMIT)
        message := "<li>ブロックあたりの文字数上限は" ++ natToString MAX_CHAR_LIMIT
          ++ "です</li>" }
     chainingOfLinksOver :=
      { yes := decide (ampCount source > MAX_CHAINING_OF_LINKS_LIMIT)
        message := "<li>ブロックあたりの<code>&</code>によるチェイン上限は"
          ++ natToString MAX_CHAINING_OF_LINKS_LIMIT ++ "です</li>" } },
   coolLog.2)

/-- Embedding of `Object.values(risk).map((r) => r.yes).includes(true)`. -/
def anyRiskYes (r : PotentialRisk) : Bool :=
  r.syntaxError.yes || r.charLimitOver.yes || r.chainingOfLinksOver.yes

/-- The error markup assigned to `this.innerHTML` when a risk is flagged,
with the whitespace of the template literal. -/
def errorListHtml (risk : PotentialRisk) : String :=
  "\n       <p>\n        <span>mermaidをレンダリングできません。</span>\n        <ul>\n        "
    ++ (if risk.syntaxError.yes then risk.syntaxError.message else "")
    ++ "\n        "
    ++ (if risk.charLimitOver.yes then risk.charLimitOver.message else "")
    ++ "\n        "
    ++ (if risk.chainingOfLinksOver.yes then risk.chainingOfLinksOver.message else "")
    ++ "\n        </ul>\n       </p>\n      "

/-- The identifier passed to `mermaid.mermaidAPI.render`, the embedding of
the template literal built from `containerId` and `Date.now().valueOf()`. -/
def mkRenderId (now : Nat) : String :=
  containerId ++ "-" ++ natToString now ++ "-render"

/-- A child node of the widget element: the original source element (with
its hidden flag set by the display-none style), the temporary container
appended on attachment, or markup installed via `innerHTML`. -/
inductive Child where
  | source (text : String) (hidden : Bool)
  | tmp (hidden : Bool)
  | markup (html : String) (hidden : Bool)
deriving DecidableEq, Repr

/-- Removes HTML tags from markup, for the text content of an
`innerHTML`-created child. -/
def stripTags : List Char → Bool → List Char
  | [], _ => []
  | c :: cs, true => if c = '>' then stripTags cs false else stripTags cs true
  | c :: cs, false => if c = '<' then stripTags cs true else c :: stripTags cs false

/-- Text content of one child node. -/
def textOf : Child → String
  | Child.source t _ => t
  | Child.tmp _ => ""
  | Child.markup h _ => String.mk (stripTags h.data false)

/-- Embedding of `this.textContent`: concatenated text of the children. -/
def textContent : List Child → String
  | [] => ""
  | c :: cs => textOf c ++ textContent cs

/-- Embedding of the setAttribute call that puts the display-none style
on `childNodes[0]`: marks the first child hidden. -/
def hideFirst : List Child → List Child
  | [] => []
  | Child.source t _ :: rest => Child.source t true :: rest
  | Child.tmp _ :: rest => Child.tmp true :: rest
  | Child.markup h _ :: rest => Child.markup h true :: rest

/-- Observable outcome of one `render` call: the page state after the
`initMermaid` await, the resulting child list, whether the risk record was
computed, and the `(id, source)` argument pair of the
`mermaid.mermaidAPI.render` invocation when one happened. -/
structure RenderResult where
  page : PageState
  children : List Child
  riskComputed : Bool
  renderCall : Option (String × String)
deriving DecidableEq, Repr

/-- Embedding of `EmbedMermaid.render`: awaits `initMermaid`, exits
silently on empty text content, hides the source element, computes the
risk record, and either installs the error markup (replacing all
children) or invokes the rendering library with the per-render
identifier. -/
def render (parse : String → Except String Unit) (now : Nat)
    (g : PageState) (w : List Child) : RenderResult :=
  let g' := initMermaid g
  let content := textContent w
  if content = "" then
    { page := g', children := w, riskComputed := false, renderCall := none }
  else
    let w1 := hideFirst w
    let risk := (getPotentialPerformanceRisk parse content).1
    if anyRiskYes risk then
      { page := g'
        children := [Child.markup (errorListHtml risk) false]
        riskComputed := true
        renderCall := none }
    else
      { page := g'
        children := w1
        riskComputed := true
        renderCall := some (mkRenderId now, content) }

/-! ### The visibility observer of `connectedCallback`

The `IntersectionObserver` callback receives a batch of entries and, for
each entry with `isIntersecting`, calls `render` and then unobserves the
temporary container. Unobserving stops the delivery of future batches but
not the traversal of the current one. An entry is modelled by its
`isIntersecting` flag. -/

/-- Observer state: whether the temporary container is still observed, and
how many render invocations the observer has triggered. -/
structure ObsState where
  observing : Bool
  renderCount : Nat
deriving DecidableEq, Repr

/-- State after attachment: observing, no render triggered yet. -/
def obsInit : ObsState where
  observing := true
  renderCount := 0

/-- Embedding of the `entries.forEach` body for one entry: an intersecting
entry triggers a render and unobserves the container. -/
def processEntry (s : ObsState) (isIntersecting : Bool) : ObsState :=
  if isIntersecting then
    { observing := false, renderCount := s.renderCount + 1 }
  else s

/-- One observer callback invocation: the batch is delivered only while
the container is observed, and then every entry of the batch is
processed. -/
def processBatch (s : ObsState) (entries : List Bool) : ObsState :=
  if s.observing then entries.foldl processEntry s else s

/-- A whole sequence of observer callback invocations. -/
def processBatches (s : ObsState) (batches : List (List Bool)) : ObsState :=
  batches.foldl processBatch s

/-- Number of intersecting entries in a batch. -/
def intersectingCount (entries : List Bool) : Nat :=
  (entries.filter (fun b => b)).length

/-! ### Concrete inputs for witnesses -/

/-- A diagram source one character over the limit. -/
def bigSource : String := String.mk (List.replicate 2001 'a')

/-- A diagram source with eleven chain ampersands. -/
def ampSource : String := String.mk (List.replicate 11 '&')

/-- A parse model that always succeeds. -/
def parseAlwaysOk : String → Except String Unit := fun _ => Except.ok ()

/-- A parse model that always throws. -/
def parseAlwaysErr : String → Except String Unit := fun _ => Except.error "boom"

/-- The post-attachment child list of a widget whose source text is `t`. -/
def attachedChildren (t : String) : List Child :=
  [Child.source t false, Child.tmp false]

/-- A fresh page state: no mermaid global, nothing loaded. -/
def pageInit : PageState where
  mermaidDefined := false
  loadedScripts := []
  initializeCount := 0
  apiInitializeCount := 0
  mermaidApiConfig := none

/-! ## Theorems -/

/-- Appending the empty string on the right is the identity. -/
theorem strAppend_empty (s : String) : s ++ "" = s := by
  cases s with
  | mk l => show String.mk (l ++ []) = String.mk l; rw [List.append_nil]

/-- The text content of a freshly attached widget is its source text. -/
theorem textContent_attached (t : String) : textContent (attachedChildren t) = t :=
  strAppend_empty t

/-- The text content of a source element next to the temporary container
is the source text, whatever the hidden flags. -/
theorem textContent_pair (t : String) (b b' : Bool) :
    textContent [Child.source t b, Child.tmp b'] = t :=
  strAppend_empty t

/-- C1: for the prose input foo-br-bar the converter emits the raw break
tag unescaped, and for a table whose cell contains foo-br-bar the output
contains the unescaped cell text. -/
theorem markdownToHtml_preserves_br :
    containsSubstring (markdownToHtml "foo<br>bar") "<p>foo<br>bar</p>" = true ∧
    containsSubstring (markdownToHtml brTableInput) "foo<br>bar" = true := by
  exact ⟨by decide, by decide⟩

/-- C2: inside an inline code span and inside a fenced code block the
break tag is HTML-entity-escaped by the converter. -/
theorem markdownToHtml_escapes_br_in_code :
    containsSubstring (markdownToHtml "foo`<br>`bar")
      "<p>foo<code>&lt;br&gt;</code>bar</p>" = true ∧
    containsSubstring (markdownToHtml brFenceInput) "&lt;br&gt;" = true := by
  exact ⟨by decide, by decide⟩

/-- C9: when the extracted text content is empty, `render` leaves the
children unchanged (so nothing is hidden and no markup is written),
computes no risk record, and never invokes the rendering library. -/
theorem render_empty_noop (parse : String → Except String Unit) (now : Nat)
    (g : PageState) (w : List Child) (h : textContent w = "") :
    render parse now g w =
      { page := initMermaid g, children := w, riskComputed := false,
        renderCall := none } := by
  simp [render, h]

/-- Witness for C9 at a widget with an empty source. -/
theorem render_empty_noop_witness :
    textContent (attachedChildren "") = "" ∧
    render parseAlwaysOk 0 pageInit (attachedChildren "") =
      { page := initMermaid pageInit, children := attachedChildren "",
        riskComputed := false, renderCall := none } :=
  ⟨rfl, render_empty_noop parseAlwaysOk 0 pageInit (attachedChildren "") rfl⟩

/-- C7: `initMermaid` is idempotent: a call on a page where the mermaid
global is defined changes nothing, and a first call defines the global,
loads the script once and installs the fixed configuration once. -/
theorem initMermaid_idempotent (g : PageState) :
    initMermaid (initMermaid g) = initMermaid g ∧
    (g.mermaidDefined = true → initMermaid g = g) ∧
    (g.mermaidDefined = false →
      (initMermaid g).mermaidDefined = true ∧
      (initMermaid g).loadedScripts = g.loadedScripts ++ [mermaidScriptSrc] ∧
      (initMermaid g).initializeCount = g.initializeCount + 1 ∧
      (initMermaid g).apiInitializeCount = g.apiInitializeCount + 1 ∧
      (initMermaid g).mermaidApiConfig = some mermaidApiFixedConfig) := by
  cases hg : g.mermaidDefined <;> simp [initMermaid, hg]

/-- Witness for C7 at a fresh page. -/
theorem initMermaid_idempotent_witness :
    pageInit.mermaidDefined = false ∧
    initMermaid (initMermaid pageInit) = initMermaid pageInit ∧
    (initMermaid pageInit).loadedScripts = pageInit.loadedScripts ++ [mermaidScriptSrc] ∧
    (initMermaid pageInit).apiInitializeCount = pageInit.apiInitializeCount + 1 := by
  have h := initMermaid_idempotent pageInit
  exact ⟨rfl, h.1, (h.2.2 rfl).2.1, (h.2.2 rfl).2.2.2.1⟩

/-- C6: a parse exception makes `getPotentialPerformanceRisk` return (it
does not rethrow) with the syntax-error flag set and the exception logged,
while a successful parse leaves the flag unset and logs nothing. -/
theorem syntaxError_caught_and_logged (parse : String → Except String Unit)
    (source : String) :
    (∀ e, parse source = Except.error e →
      (getPotentialPerformanceRisk parse source).1.syntaxError.yes = true ∧
      (getPotentialPerformanceRisk parse source).2
        = [syntaxErrorLogMessage ++ " " ++ e]) ∧
    (∀ u, parse source = Except.ok u →
      (getPotentialPerformanceRisk parse source).1.syntaxError.yes = false ∧
      (getPotentialPerformanceRisk parse source).2 = []) := by
  constructor
  · intro e he
    simp [getPotentialPerformanceRisk, he]
  · intro u he
    simp [getPotentialPerformanceRisk, he]

/-- Witness for C6 at an always-throwing parser. -/
theorem syntaxError_caught_and_logged_witness :
    parseAlwaysErr "a" = Except.error "boom" ∧
    (getPotentialPerformanceRisk parseAlwaysErr "a").1.syntaxError.yes = true ∧
    (getPotentialPerformanceRisk parseAlwaysErr "a").2
      = [syntaxErrorLogMessage ++ " " ++ "boom"] := by
  have h := (syntaxError_caught_and_logged parseAlwaysErr "a").1 "boom" rfl
  exact ⟨rfl, h.1, h.2⟩

/-- C4: a source longer than the 2000-character limit sets the
char-limit-over flag and the rendering library is not invoked for it. -/
theorem charLimitOver_blocks_render (parse : String → Except String Unit)
    (now : Nat) (g : PageState) (source : String)
    (h : source.length > MAX_CHAR_LIMIT) :
    (getPotentialPerformanceRisk parse source).1.charLimitOver.yes = true ∧
    (render parse now g (attachedChildren source)).renderCall = none := by
  have hflag : (getPotentialPerformanceRisk parse source).1.charLimitOver.yes = true := by
    simp [getPotentialPerformanceRisk, h]
  have hne : source ≠ "" := by
    intro he
    rw [he] at h
    exact absurd h (by decide)
  have hany : anyRiskYes (getPotentialPerformanceRisk parse source).1 = true := by
    simp [anyRiskYes, hflag]
  refine ⟨hflag, ?_⟩
  simp [render, textContent_attached, hne, hany]

/-- The witness source is one character over the limit. -/
theorem bigSource_length_gt : bigSource.length > MAX_CHAR_LIMIT := by
  show (List.replicate 2001 'a').length > 2000
  rw [List.length_replicate]
  norm_num

/-- Witness for C4 at a 2001-character source. -/
theorem charLimitOver_blocks_render_witness :
    bigSource.length > MAX_CHAR_LIMIT ∧
    (getPotentialPerformanceRisk parseAlwaysOk bigSource).1.charLimitOver.yes = true ∧
    (render parseAlwaysOk 0 pageInit (attachedChildren bigSource)).renderCall = none := by
  have h := charLimitOver_blocks_render parseAlwaysOk 0 pageInit bigSource
    bigSource_length_gt
  exact ⟨bigSource_length_gt, h.1, h.2⟩

/-- C5: a source with strictly more than ten ampersands sets the
chaining-of-links-over flag. -/
theorem chainingOfLinksOver_flags (parse : String → Except String Unit)
    (source : String) (h : ampCount source > MAX_CHAINING_OF_LINKS_LIMIT) :
    (getPotentialPerformanceRisk parse source).1.chainingOfLinksOver.yes = true := by
  simp [getPotentialPerformanceRisk, h]

/-- Witness for C5 at an eleven-ampersand source. -/
theorem chainingOfLinksOver_flags_witness :
    ampCount ampSource > MAX_CHAINING_OF_LINKS_LIMIT ∧
    (getPotentialPerformanceRisk parseAlwaysOk ampSource).1.chainingOfLinksOver.yes
      = true :=
  ⟨by decide, chainingOfLinksOver_flags parseAlwaysOk ampSource (by decide)⟩

/-- Appending distributes over the character data of strings. -/
theorem data_append (s t : String) : (s ++ t).data = s.data ++ t.data := rfl

/-- Strings with equal character data are equal. -/
theorem data_inj (s t : String) (h : s.data = t.data) : s = t :=
  congrArg String.mk h

/-- The digit-to-character map is injective on decimal digits. -/
theorem digitChar_inj_lt (a b : Nat) (ha : a < 10) (hb : b < 10)
    (h : Nat.digitChar a = Nat.digitChar b) : a = b := by
  have key : ∀ x : Fin 10, ∀ y : Fin 10,
      Nat.digitChar x.val = Nat.digitChar y.val → x = y := by decide
  exact congrArg Fin.val (key ⟨a, ha⟩ ⟨b, hb⟩ h)

/-- Mapping the digit-to-character map over digit lists is injective. -/
theorem map_digitChar_inj : ∀ l₁ l₂ : List Nat,
    (∀ d ∈ l₁, d < 10) → (∀ d ∈ l₂, d < 10) →
    l₁.map Nat.digitChar = l₂.map Nat.digitChar → l₁ = l₂ := by
  intro l₁
  induction l₁ with
  | nil =>
    intro l₂ _ _ h
    cases l₂ with
    | nil => rfl
    | cons b bs => simp at h
  | cons a as ih =>
    intro l₂ h1 h2 h
    cases l₂ with
    | nil => simp at h
    | cons b bs =>
      simp only [List.map_cons, List.cons.injEq] at h
      have ha : a < 10 := h1 a (List.mem_cons_self a as)
      have hb : b < 10 := h2 b (List.mem_cons_self b bs)
      have hab := digitChar_inj_lt a b ha hb h.1
      have hrest := ih bs (fun d hd => h1 d (List.mem_cons_of_mem _ hd))
        (fun d hd => h2 d (List.mem_cons_of_mem _ hd)) h.2
      rw [hab, hrest]

/-- The decimal character rendering of a nonzero number is not the
single-character string zero. -/
theorem natDigitsStr_ne_zero (b : Nat) (hb : b ≠ 0) :
    String.mk ((Nat.digits 10 b).reverse.map Nat.digitChar) ≠ "0" := by
  intro h
  have hd : (Nat.digits 10 b).reverse.map Nat.digitChar = ['0'] := by
    have := congrArg String.data h
    simpa using this
  have hlen : (Nat.digits 10 b).length = 1 := by
    have := congrArg List.length hd
    simpa using this
  obtain ⟨d, hdig⟩ := List.length_eq_one.mp hlen
  have hd10 : d < 10 := Nat.digits_lt_base (by norm_num)
    (by rw [hdig]; exact List.mem_singleton_self d)
  have hchar : Nat.digitChar d = '0' := by
    rw [hdig] at hd
    simpa using hd
  have hd0 : d = 0 := digitChar_inj_lt d 0 hd10 (by norm_num) hchar
  apply hb
  have hof := Nat.ofDigits_digits 10 b
  rw [hdig, hd0] at hof
  simpa [Nat.ofDigits] using hof.symm

/-- The modelled JavaScript decimal rendering of a number is injective. -/
theorem natToString_inj (a b : Nat) (h : natToString a = natToString b) : a = b := by
  unfold natToString at h
  by_cases ha : a = 0 <;> by_cases hb : b = 0
  · rw [ha, hb]
  · rw [if_pos ha, if_neg hb] at h
    exact absurd h.symm (natDigitsStr_ne_zero b hb)
  · rw [if_neg ha, if_pos hb] at h
    exact absurd h (natDigitsStr_ne_zero a ha)
  · rw [if_neg ha, if_neg hb] at h
    have hd : (Nat.digits 10 a).reverse.map Nat.digitChar
        = (Nat.digits 10 b).reverse.map Nat.digitChar := by
      have := congrArg String.data h
      simpa using this
    have hda : ∀ d ∈ (Nat.digits 10 a).reverse, d < 10 := fun d hd =>
      Nat.digits_lt_base (by norm_num) (List.mem_reverse.mp hd)
    have hdb : ∀ d ∈ (Nat.digits 10 b).reverse, d < 10 := fun d hd =>
      Nat.digits_lt_base (by norm_num) (List.mem_reverse.mp hd)
    have hrev := map_digitChar_inj _ _ hda hdb hd
    have hdig : Nat.digits 10 a = Nat.digits 10 b := by
      have := congrArg List.reverse hrev
      simpa using this
    calc a = Nat.ofDigits 10 (Nat.digits 10 a) := (Nat.ofDigits_digits 10 a).symm
      _ = Nat.ofDigits 10 (Nat.digits 10 b) := by rw [hdig]
      _ = b := Nat.ofDigits_digits 10 b

/-- Distinct render timestamps produce distinct per-render identifiers. -/
theorem mkRenderId_inj (n₁ n₂ : Nat) (h : mkRenderId n₁ = mkRenderId n₂) :
    n₁ = n₂ := by
  apply natToString_inj
  apply data_inj
  have hd := congrArg String.data h
  simp only [mkRenderId, data_append] at hd
  exact List.append_cancel_left (List.append_cancel_right hd)

/-- C3: for a non-empty source, `render` either (any risk flag set)
replaces the children with the error-list markup and never invokes the
rendering library, or (no flag set) invokes the rendering library with
the per-render identifier, which is injective in the timestamp, and
produces no error markup. -/
theorem render_exclusive_outcomes (parse : String → Except String Unit)
    (now : Nat) (g : PageState) (t : String) (h : t ≠ "") :
    (anyRiskYes (getPotentialPerformanceRisk parse t).1 = true →
      (render parse now g (attachedChildren t)).children
        = [Child.markup (errorListHtml (getPotentialPerformanceRisk parse t).1) false] ∧
      (render parse now g (attachedChildren t)).renderCall = none) ∧
    (anyRiskYes (getPotentialPerformanceRisk parse t).1 = false →
      (render parse now g (attachedChildren t)).renderCall
        = some (mkRenderId now, t) ∧
      (render parse now g (attachedChildren t)).children
        = [Child.source t true, Child.tmp false] ∧
      ∀ html hid, Child.markup html hid ∉ (render parse now g (attachedChildren t)).children) ∧
    (∀ n₁ n₂ : Nat, mkRenderId n₁ = mkRenderId n₂ → n₁ = n₂) := by
  refine ⟨?_, ?_, mkRenderId_inj⟩
  · intro hr
    constructor <;> simp [render, textContent_attached, textContent_pair, h, hr]
  · intro hr
    refine ⟨?_, ?_, ?_⟩ <;>
      simp [render, textContent_attached, textContent_pair, h, hr, hideFirst, attachedChildren]

/-- Witness for C3 at a risk-free diagram source. -/
theorem render_exclusive_outcomes_witness :
    "graph TD" ≠ "" ∧
    anyRiskYes (getPotentialPerformanceRisk parseAlwaysOk "graph TD").1 = false ∧
    (render parseAlwaysOk 1700000000000 pageInit (attachedChildren "graph TD")).renderCall
      = some (mkRenderId 1700000000000, "graph TD") ∧
    (render parseAlwaysOk 1700000000000 pageInit (attachedChildren "graph TD")).children
      = [Child.source "graph TD" true, Child.tmp false] := by
  have h := render_exclusive_outcomes parseAlwaysOk 1700000000000 pageInit
    "graph TD" (by decide)
  have h2 := h.2.1 (by decide)
  exact ⟨by decide, by decide, h2.1, h2.2.1⟩

/-- C10: on the risky path `render` replaces the entire child list with
the error markup, so neither the original source element nor the
temporary container remains; only on the all-flags-false path does the
original source remain, present and hidden, next to the container. -/
theorem render_error_replaces_children (parse : String → Except String Unit)
    (now : Nat) (g : PageState) (t : String) (h : t ≠ "") :
    (anyRiskYes (getPotentialPerformanceRisk parse t).1 = true →
      (render parse now g (attachedChildren t)).children
        = [Child.markup (errorListHtml (getPotentialPerformanceRisk parse t).1) false] ∧
      (∀ u hid, Child.source u hid ∉ (render parse now g (attachedChildren t)).children) ∧
      (∀ hid, Child.tmp hid ∉ (render parse now g (attachedChildren t)).children)) ∧
    (anyRiskYes (getPotentialPerformanceRisk parse t).1 = false →
      (render parse now g (attachedChildren t)).children
        = [Child.source t true, Child.tmp false]) := by
  constructor
  · intro hr
    refine ⟨?_, ?_, ?_⟩ <;> simp [render, textContent_attached, textContent_pair, h, hr]
  · intro hr
    simp [render, textContent_attached, textContent_pair, h, hr, hideFirst, attachedChildren]

/-- Witness for C10 at a source whose parse throws. -/
theorem render_error_replaces_children_witness :
    "a" ≠ "" ∧
    anyRiskYes (getPotentialPerformanceRisk parseAlwaysErr "a").1 = true ∧
    (render parseAlwaysErr 0 pageInit (attachedChildren "a")).children
      = [Child.markup (errorListHtml (getPotentialPerformanceRisk parseAlwaysErr "a").1) false] := by
  have h := render_error_replaces_children parseAlwaysErr 0 pageInit "a" (by decide)
  exact ⟨by decide, by decide, (h.1 (by decide)).1⟩

/-- Folding the per-entry handler over one batch adds one render per
intersecting entry and keeps observing exactly when the batch had none. -/
theorem foldl_processEntry (b : List Bool) (s : ObsState) :
    (b.foldl processEntry s).renderCount = s.renderCount + intersectingCount b ∧
    (b.foldl processEntry s).observing
      = (s.observing && intersectingCount b == 0) := by
  induction b generalizing s with
  | nil => simp [intersectingCount]
  | cons x xs ih =>
    cases x
    · have hc : intersectingCount (false :: xs) = intersectingCount xs := by
        simp [intersectingCount]
      have hstep : processEntry s false = s := rfl
      rw [List.foldl_cons, hstep, hc]
      exact ih s
    · have hc : intersectingCount (true :: xs) = intersectingCount xs + 1 := by
        simp [intersectingCount, List.filter]
      have hstep : processEntry s true
          = { observing := false, renderCount := s.renderCount + 1 } := rfl
      rw [List.foldl_cons, hstep, hc]
      have := ih { observing := false, renderCount := s.renderCount + 1 }
      refine ⟨?_, ?_⟩
      · rw [this.1]
        show s.renderCount + 1 + intersectingCount xs
          = s.renderCount + (intersectingCount xs + 1)
        omega
      · rw [this.2]
        simp

/-- Once the observer is deregistered, later callback batches change
nothing. -/
theorem processBatches_not_observing (bs : List (List Bool)) (s : ObsState)
    (h : s.observing = false) : processBatches s bs = s := by
  induction bs with
  | nil => rfl
  | cons b bs ih =>
    show processBatches (processBatch s b) bs = s
    rw [processBatch, if_neg (by rw [h]; exact Bool.false_ne_true)]
    exact ih

/-- Bound on observer-triggered renders: when every batch has at most one
intersecting entry, a batch sequence adds at most one render while
observing and none once deregistered, and if the observer is still
registered afterwards then nothing was rendered. -/
theorem processBatches_bound (bs : List (List Bool)) (s : ObsState)
    (h : ∀ b ∈ bs, intersectingCount b ≤ 1) (hobs : s.observing = true) :
    (processBatches s bs).renderCount ≤ s.renderCount + 1 ∧
    ((processBatches s bs).observing = true →
      (processBatches s bs).renderCount = s.renderCount) := by
  induction bs generalizing s with
  | nil =>
    exact ⟨Nat.le_add_right _ _, fun _ => rfl⟩
  | cons b bs ih =>
    have hrest : ∀ x ∈ bs, intersectingCount x ≤ 1 :=
      fun x hx => h x (List.mem_cons_of_mem _ hx)
    have hunfold : processBatches s (b :: bs)
        = processBatches (processBatch s b) bs := rfl
    have hid : processBatch s b = b.foldl processEntry s := by
      rw [processBatch, if_pos hobs]
    rw [hunfold, hid]
    have hf := foldl_processEntry b s
    cases hc : intersectingCount b with
    | zero =>
      have hrc : (b.foldl processEntry s).renderCount = s.renderCount := by
        rw [hf.1, hc]; rfl
      have hob : (b.foldl processEntry s).observing = true := by
        rw [hf.2, hc, hobs]; rfl
      have hres := ih (b.foldl processEntry s) hrest hob
      rw [hrc] at hres
      exact hres
    | succ n =>
      have hb := h b (List.mem_cons_self b bs)
      have hn : n = 0 := by omega
      have hrc : (b.foldl processEntry s).renderCount = s.renderCount + 1 := by
        rw [hf.1, hc, hn]
      have hob : (b.foldl processEntry s).observing = false := by
        rw [hf.2, hc]; simp
      rw [processBatches_not_observing bs _ hob, hrc]
      refine ⟨Nat.le_refl _, fun hcontra => ?_⟩
      rw [hob] at hcontra
      exact absurd hcontra (by decide)

/-- C8 counterexample: one visibility callback can deliver several
intersecting entries for the observed container (the observer batches all
threshold crossings that happened since the last dispatch), and the
callback body calls `render` once per intersecting entry, since
unobserving does not stop the traversal of the already-delivered batch:
the claimed at-most-one bound fails. -/
theorem observer_double_render_counterexample :
    (processBatches obsInit [[true, false, true]]).renderCount = 2 ∧
    ¬(processBatches obsInit [[true, false, true]]).renderCount ≤ 1 := by decide

/-- C8 (amended): for every sequence of visibility callbacks in which
each callback delivers at most one intersecting entry, the observer
triggers `render` at most once, and once it has triggered, the temporary
container is no longer observed. -/
theorem observer_single_trigger_amended (batches : List (List Bool))
    (h : ∀ b ∈ batches, intersectingCount b ≤ 1) :
    (processBatches obsInit batches).renderCount ≤ 1 ∧
    ((processBatches obsInit batches).renderCount = 1 →
      (processBatches obsInit batches).observing = false) := by
  have hb := processBatches_bound batches obsInit h rfl
  constructor
  · simpa [obsInit] using hb.1
  · intro h1
    cases hobs : (processBatches obsInit batches).observing
    · rfl
    · have h0 := hb.2 hobs
      rw [h1] at h0
      exact absurd h0 (by decide)

/-- Witness for C8 (amended): three single-entry callbacks, two of them
intersecting; only the first intersecting one renders. -/
theorem observer_single_trigger_amended_witness :
    (∀ b ∈ [[false], [true], [true]], intersectingCount b ≤ 1) ∧
    (processBatches obsInit [[false], [true], [true]]).renderCount ≤ 1 := by
  have h := observer_single_trigger_amended [[false], [true], [true]] (by decide)
  exact ⟨by decide, h.1⟩

end Zenn
